import Mathlib

/-!
# Verification of the aviation-data lambda handlers

Shallow embedding of the four request handlers of the repository
(`lambda/airport.py`, `lambda/airport_search.py`, `lambda/metar.py`,
`lambda/winds_aloft.py`) and proofs of the behavioural claims about them.

Conventions of the embedding:
* Python strings are Lean `String`s; `str.strip`, `str.upper`, `str.lower`,
  `str.startswith`, `str.split` and substring containment are implemented on
  the character list (`pyStrip`, `pyUpper`, `pyLower`, `pyStarts`, `pySplit`,
  `pyIn`).  The data handled by this program is ASCII.
* JSON numbers (latitude, longitude, elevation) are exact decimals
  `Dec` (value `sig · 10^(-exp)`); the only arithmetic the program performs
  on them is one multiplication by the decimal constant 3.28084 followed by
  Python `round` (banker's rounding), both exact on `Dec`.
* Python dictionaries are association lists with in-place overwrite
  (`dictInsert`) and first-match lookup (`dictLookup`), which models both a
  dict's key set and its insertion order.
* The outbound HTTP world is an explicit oracle argument: `RemoteResult` for
  per-request fetches, `Option` payloads for calls whose failures are caught
  wholesale.  A handler result records the response together with a flag
  telling whether the outbound call was issued, and the process-wide caches
  are passed in and returned explicitly.
-/

/-- Python `needle in hay` (substring containment) on character lists. -/
def segIn (needle : List Char) : List Char → Bool
  | [] => needle.isEmpty
  | c :: t => needle.isPrefixOf (c :: t) || segIn needle t

/-- Python `needle in hay` for strings. -/
def pyIn (needle hay : String) : Bool :=
  segIn needle.data hay.data

/-- Python `s.strip()` (for the ASCII whitespace this program meets). -/
def pyStrip (s : String) : String :=
  ⟨(((s.data.dropWhile Char.isWhitespace).reverse).dropWhile Char.isWhitespace).reverse⟩

/-- Python `s.upper()` (ASCII). -/
def pyUpper (s : String) : String :=
  ⟨s.data.map Char.toUpper⟩

/-- Python `s.lower()` (ASCII). -/
def pyLower (s : String) : String :=
  ⟨s.data.map Char.toLower⟩

/-- Python `s.startswith(pre)`. -/
def pyStarts (s pre : String) : Bool :=
  pre.data.isPrefixOf s.data

/-- Split a character list at every occurrence of the separator. -/
def splitCharList (sep : Char) : List Char → List (List Char)
  | [] => [[]]
  | x :: t =>
      if x = sep then [] :: splitCharList sep t
      else
        match splitCharList sep t with
        | [] => [[x]]
        | h :: r => (x :: h) :: r

/-- Python `s.split(sep)` for a one-character separator. -/
def pySplitOn (sep : Char) (s : String) : List String :=
  (splitCharList sep s.data).map (fun l => (⟨l⟩ : String))

/-- Split a character list at every character satisfying `p`. -/
def splitAtPred (p : Char → Bool) : List Char → List (List Char)
  | [] => [[]]
  | x :: t =>
      if p x then [] :: splitAtPred p t
      else
        match splitAtPred p t with
        | [] => [[x]]
        | h :: r => (x :: h) :: r

/-- Python `s.split()`: split on whitespace runs, dropping empty pieces. -/
def pySplit (s : String) : List String :=
  ((splitAtPred Char.isWhitespace s.data).map (fun l => (⟨l⟩ : String))).filter
    (fun t => t ≠ "")

/-- All characters are decimal digits. -/
def allDigits (l : List Char) : Bool :=
  l.all Char.isDigit

/-- Value of a list of decimal digit characters. -/
def digitsOf (l : List Char) : Nat :=
  l.foldl (fun n c => n * 10 + (c.toNat - 48)) 0

/-- Nonempty all-digit character lists, as a number. -/
def decDigits? (l : List Char) : Option Nat :=
  if l ≠ [] ∧ allDigits l then some (digitsOf l) else none

/-- Python `int(s)` for plain decimal literals: optional surrounding
whitespace, optional sign, then decimal digits.  (Underscore separators and
non-ASCII digits accepted by CPython are not modelled; no claim exercises
them.)  Returns `none` where `int` raises `ValueError`. -/
def pyInt? (s : String) : Option Int :=
  match (pyStrip s).data with
  | '-' :: rest => (decDigits? rest).map (fun n => -(n : Int))
  | '+' :: rest => (decDigits? rest).map (fun n => (n : Int))
  | l => (decDigits? l).map (fun n => (n : Int))

/-- An exact decimal number, of value `sig · 10 ^ (-(exp : Int))`.  JSON
numbers of the remote APIs and the CSV dataset are decimal literals, which
`Dec` represents exactly. -/
structure Dec where
  sig : Int
  exp : Nat
deriving DecidableEq, Repr

/-- Exact product of two decimals. -/
def decMul (a b : Dec) : Dec :=
  ⟨a.sig * b.sig, a.exp + b.exp⟩

/-- The conversion constant 3.28084 (feet per meter) as an exact decimal. -/
def FEET_PER_METER : Dec := ⟨328084, 5⟩

/-- Python `round` on an exact decimal: round half to even. -/
def pyRound (q : Dec) : Int :=
  let d : Int := (10 : Int) ^ q.exp
  let f := q.sig.fdiv d
  let r := q.sig.fmod d
  if 2 * r < d then f
  else if d < 2 * r then f + 1
  else if f % 2 = 0 then f else f + 1

/-- Python `float(s)` for plain decimal literals (optional sign, digits,
optional fractional part), as an exact decimal.  Exponent notation,
`inf`/`nan` and underscores are not modelled; no claim exercises them.
Returns `none` where `float` raises `ValueError`. -/
def pyFloat? (s : String) : Option Dec :=
  let t := pyStrip s
  let neg := pyStarts t "-"
  let u := if pyStarts t "-" || pyStarts t "+" then ⟨t.data.drop 1⟩ else t
  match pySplitOn '.' u with
  | [ip] =>
      (decDigits? ip.data).map (fun n => ⟨if neg then -(n : Int) else (n : Int), 0⟩)
  | [ip, fp] =>
      if (ip ≠ "" ∨ fp ≠ "") ∧ allDigits ip.data ∧ allDigits fp.data then
        let n : Int := (digitsOf ip.data : Int) * (10 : Int) ^ fp.length + (digitsOf fp.data : Int)
        some ⟨if neg then -n else n, fp.length⟩
      else none
  | _ => none

/-- Lexicographic (code point) strict comparison of character lists, as in
Python string comparison. -/
def charListLt : List Char → List Char → Bool
  | [], [] => false
  | [], _ :: _ => true
  | _ :: _, [] => false
  | a :: s, b :: t =>
      if a.toNat < b.toNat then true
      else if b.toNat < a.toNat then false
      else charListLt s t

/-- Python `a <= b` on strings. -/
def pyStrLe (a b : String) : Bool :=
  ! charListLt b.data a.data

/-- Lookup in a Python-dict model (`key in d` is `(dictLookup d k).isSome`). -/
def dictLookup {α : Type} (d : List (String × α)) (k : String) : Option α :=
  match d with
  | [] => none
  | (k', v) :: t => if k' = k then some v else dictLookup t k

/-- Python `d[k] = v`: overwrite in place if the key exists, else append. -/
def dictInsert {α : Type} (d : List (String × α)) (k : String) (v : α) :
    List (String × α) :=
  match d with
  | [] => [(k, v)]
  | (k', v') :: t => if k' = k then (k, v) :: t else (k', v') :: dictInsert t k v

/-- An airport record of the search reference list (`AirportRecord`). -/
structure Airport where
  icao : String
  name : String
  state : String
  lat : Dec
  lon : Dec
deriving DecidableEq, Repr

/-- A station record of the remote stationinfo API, fields optional as in a
JSON object (a missing field is `none`). -/
structure StationRec where
  icaoId : Option String
  site : Option String
  lat : Option Dec
  lon : Option Dec
  elev : Option Dec
  state : Option String
  country : Option String
deriving DecidableEq, Repr

/-- A cached station coordinate (`{'lat': ..., 'lon': ...}`). -/
structure Coord where
  lat : Option Dec
  lon : Option Dec
deriving DecidableEq, Repr

/-- The projected airport object returned by the AirportLookup handler. -/
structure AirportData where
  icao : String
  name : String
  lat : Option Dec
  lon : Option Dec
  elevation : Option Int
  state : String
  country : String
deriving DecidableEq, Repr

/-- Response bodies, at the structural level of `json.dumps` input. -/
inductive Body where
  | jsonError (msg : String)
  | jsonList (airports : List Airport)
  | jsonAirport (a : AirportData)
  | jsonWinds (raw : String) (stationCoords : List (String × Coord))
  | text (s : String)
deriving DecidableEq, Repr

/-- The API-Gateway style response object. -/
structure Response where
  statusCode : Int
  headers : List (String × String)
  body : Body
deriving DecidableEq, Repr

/-- Outcome of one outbound HTTP fetch (`urllib.request.urlopen`). -/
inductive RemoteResult (α : Type) where
  | httpError (code : Int) (reason : String)
  | connError (reason : String)
  | ok (payload : α)
deriving DecidableEq, Repr

/-- Handler outcome: the response, plus whether the outbound call was made. -/
structure CallOut where
  resp : Response
  called : Bool
deriving DecidableEq, Repr

/-! ## airport_search.py -/

/-- One parsed CSV row of the OurAirports dataset, restricted to the columns
the code reads; a column absent from the file is `none`. -/
structure CsvRow where
  iso_country : Option String
  icao_code : Option String
  ident : Option String
  type : Option String
  latitude_deg : Option String
  longitude_deg : Option String
  iso_region : Option String
  name : Option String
deriving DecidableEq, Repr

/-- The per-row filter/projection of the `for row in reader` loop of
`fetch_all_airports` (`airport_search.py` lines 48-79): `none` where the loop
`continue`s, `some` with the built record otherwise. -/
def rowAirport (row : CsvRow) : Option Airport :=
  if row.iso_country ≠ some "US" then none
  else
    let icao := match row.icao_code with
      | some s => if s = "" then row.ident.getD "" else s
      | none => row.ident.getD ""
    if icao = "" ∨ icao.length < 3 then none
    else
      let airport_type := row.type.getD ""
      if ¬ (airport_type = "large_airport" ∨ airport_type = "medium_airport" ∨
            airport_type = "small_airport") then none
      else
        match (match row.latitude_deg with | none => some (⟨0, 0⟩ : Dec) | some s => pyFloat? s),
              (match row.longitude_deg with | none => some (⟨0, 0⟩ : Dec) | some s => pyFloat? s) with
        | some lat, some lon =>
            let iso_region := row.iso_region.getD ""
            let state := if pyIn "-" iso_region then ((pySplitOn '-' iso_region).getD 1 "") else ""
            some ⟨pyUpper icao, row.name.getD "Unknown", state, lat, lon⟩
        | _, _ => none

/-- Stable insertion of an airport into a list already sorted by ICAO (after
equal keys, so that the fold below is a stable sort as Python's is). -/
def insertByIcao (a : Airport) : List Airport → List Airport
  | [] => [a]
  | b :: t => if pyStrLe b.icao a.icao then b :: insertByIcao a t else a :: b :: t

/-- `airports.sort(key=lambda x: x['icao'])`: stable ascending sort. -/
def sortByIcao (l : List Airport) : List Airport :=
  l.foldl (fun acc a => insertByIcao a acc) []

/-- Filter, project and sort the CSV rows (`fetch_all_airports` lines 48-82). -/
def processRows (rows : List CsvRow) : List Airport :=
  sortByIcao (rows.filterMap rowAirport)

/-- `fetch_all_airports` (`airport_search.py` lines 21-90).  The module-level
`_airport_cache` is the explicit `cache` argument and the second component of
the result; `remote` is the combined outcome of the dataset fetch and CSV
parse (`none` when the `try` block raises, in which case the source logs,
returns `[]` and leaves the cache unassigned). -/
def fetch_all_airports (cache : Option (List Airport)) (remote : Option (List CsvRow)) :
    List Airport × Option (List Airport) :=
  match cache with
  | some l => (l, some l)
  | none =>
      match remote with
      | none => ([], none)
      | some rows =>
          let airports := processRows rows
          (airports, some airports)

/-- First pass of `search_airports` (lines 105-110): collect ICAO-prefix
matches, returning from the whole function (`Bool` flag `true`) once `limit`
is reached. -/
def firstPass (query_upper : String) (limit : Int) :
    List Airport → List Airport → List Airport × Bool
  | results, [] => (results, false)
  | results, a :: rest =>
      if pyStarts a.icao query_upper then
        let results' := results ++ [a]
        if limit ≤ (results'.length : Int) then (results', true)
        else firstPass query_upper limit results' rest
      else firstPass query_upper limit results rest

/-- Second pass of `search_airports` (lines 112-121): append name-substring
matches whose ICAO was not already seen, breaking once `limit` is reached. -/
def secondPass (query_lower : String) (limit : Int) (seen_icaos : List String) :
    List Airport → List Airport → List Airport
  | results, [] => results
  | results, a :: rest =>
      if a.icao ∈ seen_icaos then secondPass query_lower limit seen_icaos results rest
      else if pyIn query_lower (pyLower a.name) then
        let results' := results ++ [a]
        if limit ≤ (results'.length : Int) then results'
        else secondPass query_lower limit seen_icaos results' rest
      else secondPass query_lower limit seen_icaos results rest

/-- `search_airports` (`airport_search.py` lines 93-123).  The cached airport
list (what `fetch_all_airports()` returned) is the explicit first argument. -/
def search_airports (airports : List Airport) (query : String) (limit : Int) :
    List Airport :=
  if query = "" then []
  else
    let query_upper := pyStrip (pyUpper query)
    let query_lower := pyStrip (pyLower query)
    let p := firstPass query_upper limit [] airports
    if p.2 then p.1
    else if (p.1.length : Int) < limit then
      secondPass query_lower limit (p.1.map (fun a => a.icao)) p.1 airports
    else p.1

/-- The search result as the claim describes it, with the amendment that the
query is uppercased/lowercased *and whitespace-trimmed* (as the code does):
all ICAO-prefix matches in cache order, then the not-already-included
name-substring matches in cache order, truncated at `limit`. -/
def searchSpecAmended (airports : List Airport) (query : String) (limit : Int) :
    List Airport :=
  if query = "" then []
  else
    let query_upper := pyStrip (pyUpper query)
    let query_lower := pyStrip (pyLower query)
    let pref := airports.filter (fun a => pyStarts a.icao query_upper)
    let subs := airports.filter
      (fun a => decide (a.icao ∉ pref.map (fun a => a.icao)) && pyIn query_lower (pyLower a.name))
    (pref ++ subs).take limit.toNat

/-- The search result exactly as the claim states it: matching against the
uppercased/lowercased query *without* trimming. -/
def searchSpecClaim (airports : List Airport) (query : String) (limit : Int) :
    List Airport :=
  if query = "" then []
  else
    let query_upper := pyUpper query
    let query_lower := pyLower query
    let pref := airports.filter (fun a => pyStarts a.icao query_upper)
    let subs := airports.filter
      (fun a => decide (a.icao ∉ pref.map (fun a => a.icao)) && pyIn query_lower (pyLower a.name))
    (pref ++ subs).take limit.toNat

/-- Effective `limit` of the search handler (`airport_search.py` lines
142-146): parse the parameter (default `'15'`), clamp with
`min(max(limit, 1), 50)`, fall back to 15 when `int` raises `ValueError`. -/
def parseLimit (limitP : Option String) : Int :=
  match pyInt? (limitP.getD "15") with
  | some n => min (max n 1) 50
  | none => 15

/-- Search handler outcome: response, resulting reference cache, and whether
`fetch_all_airports` was invoked. -/
structure SearchOut where
  resp : Response
  cache : Option (List Airport)
  calledFetch : Bool
deriving DecidableEq, Repr

/-- `handler` of `airport_search.py` (lines 126-191).  `q`/`limitP` are the
query-string parameters, `cache` the incoming `_airport_cache`, `remote` the
dataset-fetch oracle.  (The source reads the cache inside `search_airports`;
here the fetch is performed once by the handler and the list passed down,
the same data flow with the state made explicit.) -/
def search_handler (q limitP : Option String) (cache : Option (List Airport))
    (remote : Option (List CsvRow)) : SearchOut :=
  let query := q.getD ""
  let limit := parseLimit limitP
  if query.length < 2 then
    ⟨⟨200, [("Access-Control-Allow-Origin", "*"),
            ("Access-Control-Allow-Headers", "Content-Type"),
            ("Access-Control-Allow-Methods", "GET,OPTIONS"),
            ("Content-Type", "application/json")],
      Body.jsonList []⟩, cache, false⟩
  else
    let p := fetch_all_airports cache remote
    let results := search_airports p.1 query limit
    ⟨⟨200, [("Access-Control-Allow-Origin", "*"),
            ("Access-Control-Allow-Headers", "Content-Type"),
            ("Access-Control-Allow-Methods", "GET,OPTIONS"),
            ("Content-Type", "application/json"),
            ("Cache-Control", "max-age=3600")],
      Body.jsonList results⟩, p.2, true⟩

/-! ## airport.py -/

/-- Decoded payload of the stationinfo fetch in `airport.py`: the body text
was empty/whitespace (`blank`), `json.loads` raised (`badJson`), or a JSON
list of station objects. -/
inductive AirportPayload where
  | blank
  | badJson
  | stations (l : List StationRec)
deriving DecidableEq, Repr

/-- `handler` of `airport.py` (lines 17-174). -/
def airport_handler (icaoP : Option String) (remote : RemoteResult AirportPayload) :
    CallOut :=
  let icao := pyStrip (pyUpper (icaoP.getD ""))
  if icao = "" ∨ icao.length < 3 ∨ 4 < icao.length then
    ⟨⟨400, [("Access-Control-Allow-Origin", "*"), ("Content-Type", "application/json")],
      Body.jsonError "Invalid ICAO code. Must be 3-4 characters (e.g., KBOS, KJFK)"⟩,
     false⟩
  else
    match remote with
    | .httpError code reason =>
        ⟨⟨code, [("Access-Control-Allow-Origin", "*"), ("Content-Type", "application/json")],
          Body.jsonError ("Failed to fetch airport data: HTTP " ++ toString code ++ " " ++ reason)⟩,
         true⟩
    | .connError reason =>
        ⟨⟨503, [("Access-Control-Allow-Origin", "*"), ("Content-Type", "application/json")],
          Body.jsonError ("Failed to connect to aviation service: " ++ reason)⟩, true⟩
    | .ok .blank =>
        ⟨⟨404, [("Access-Control-Allow-Origin", "*"), ("Content-Type", "application/json")],
          Body.jsonError ("Airport " ++ icao ++ " not found in FAA database")⟩, true⟩
    | .ok .badJson =>
        ⟨⟨500, [("Access-Control-Allow-Origin", "*"), ("Content-Type", "application/json")],
          Body.jsonError "Invalid response from aviation service"⟩, true⟩
    | .ok (.stations []) =>
        ⟨⟨404, [("Access-Control-Allow-Origin", "*"), ("Content-Type", "application/json")],
          Body.jsonError ("Airport " ++ icao ++ " not found in FAA database")⟩, true⟩
    | .ok (.stations (station :: _)) =>
        let airport_data : AirportData :=
          { icao := station.icaoId.getD icao
            name := station.site.getD "Unknown"
            lat := station.lat
            lon := station.lon
            elevation := station.elev.map (fun m => pyRound (decMul m FEET_PER_METER))
            state := station.state.getD ""
            country := station.country.getD "" }
        ⟨⟨200, [("Access-Control-Allow-Origin", "*"),
                ("Access-Control-Allow-Headers", "Content-Type"),
                ("Access-Control-Allow-Methods", "GET,OPTIONS"),
                ("Content-Type", "application/json"),
                ("Cache-Control", "max-age=86400")],
          Body.jsonAirport airport_data⟩, true⟩

/-! ## metar.py -/

/-- `handler` of `metar.py` (lines 18-116). -/
def metar_handler (icaoP : Option String) (remote : RemoteResult String) : CallOut :=
  let icao := pyStrip (pyUpper (icaoP.getD "KBOS"))
  if icao = "" ∨ icao.length < 3 ∨ 4 < icao.length then
    ⟨⟨400, [("Access-Control-Allow-Origin", "*"), ("Content-Type", "application/json")],
      Body.jsonError "Invalid ICAO code. Must be 3-4 characters (e.g., KBOS, KJFK)"⟩,
     false⟩
  else
    match remote with
    | .httpError code reason =>
        ⟨⟨code, [("Access-Control-Allow-Origin", "*"), ("Content-Type", "application/json")],
          Body.jsonError ("Failed to fetch METAR data: HTTP " ++ toString code ++ " " ++ reason)⟩,
         true⟩
    | .connError reason =>
        ⟨⟨503, [("Access-Control-Allow-Origin", "*"), ("Content-Type", "application/json")],
          Body.jsonError ("Failed to connect to weather service: " ++ reason)⟩, true⟩
    | .ok data =>
        ⟨⟨200, [("Access-Control-Allow-Origin", "*"),
                ("Access-Control-Allow-Headers", "Content-Type"),
                ("Access-Control-Allow-Methods", "GET,OPTIONS"),
                ("Content-Type", "text/plain"),
                ("Cache-Control", "max-age=300")],
          Body.text data⟩, true⟩

/-! ## winds_aloft.py -/

/-- Per-line body of `extract_station_codes` (`winds_aloft.py` lines 32-43):
the station code contributed by one bulletin line, if any. -/
def lineStation (line : String) : Option String :=
  let l := pyStrip line
  if l = "" ∨ pyStarts l "(" ∨ pyStarts l "FD" ∨ pyStarts l "DATA" ∨
     pyStarts l "VALID" ∨ pyStarts l "FT" ∨ pyIn "TEMPS NEG" l then none
  else
    match pySplit l with
    | [] => none
    | t :: _ => if t.length = 3 ∧ t.data.all Char.isAlpha then some t else none

/-- `extract_station_codes` (`winds_aloft.py` lines 24-45).  The source
accumulates the codes in a Python `set` and returns `list(set)` in
unspecified order; the embedding returns the same set in first-occurrence
order (`dedup` keeps first occurrences). -/
def extract_station_codes (raw_data : String) : List String :=
  ((pySplitOn '\n' raw_data).filterMap lineStation).dedup

/-- The coordinate cache `_station_coords_cache`: station code to coordinate,
`none` being the "looked up, absent" sentinel (`None` in the source). -/
abbrev CoordCache : Type := List (String × Option Coord)

/-- The cache-check loop of `fetch_station_coordinates` (lines 58-64):
accumulates the `coords` hits and the `codes_to_fetch` list. -/
def cacheScanAux (cache : CoordCache) :
    List (String × Coord) → List String → List String →
    List (String × Coord) × List String
  | coords, toFetch, [] => (coords, toFetch)
  | coords, toFetch, code :: rest =>
      match dictLookup cache code with
      | some (some v) => cacheScanAux cache (dictInsert coords code v) toFetch rest
      | some none => cacheScanAux cache coords toFetch rest
      | none => cacheScanAux cache coords (toFetch ++ [code]) rest

/-- The cached hits for a request (first output of the cache-check loop). -/
def cachedCoords (cache : CoordCache) (station_codes : List String) :
    List (String × Coord) :=
  (cacheScanAux cache [] [] station_codes).1

/-- `codes_to_fetch`: the requested codes that the remote batch lookup will
be issued for (second output of the cache-check loop). -/
def codesToFetch (cache : CoordCache) (station_codes : List String) : List String :=
  (cacheScanAux cache [] [] station_codes).2

/-- Recover the 3-letter code from a returned station's identifier
(`winds_aloft.py` lines 86-88): strip the leading `K` only from 4-character
identifiers starting with `K`. -/
def faaOf (station : StationRec) : String :=
  let icao := station.icaoId.getD ""
  if pyStarts icao "K" ∧ icao.length = 4 then (⟨icao.data.drop 1⟩ : String) else icao

/-- The response-processing loop of `fetch_station_coordinates` (lines
85-95): for each returned station, recover the 3-letter code and record the
coordinate in `coords` and in the cache when that code was requested. -/
def remoteScan (toFetch : List String) :
    List StationRec → List (String × Coord) → CoordCache →
    List (String × Coord) × CoordCache
  | [], coords, cache => (coords, cache)
  | station :: rest, coords, cache =>
      if faaOf station ∈ toFetch then
        let coord : Coord := ⟨station.lat, station.lon⟩
        remoteScan toFetch rest (dictInsert coords (faaOf station) coord)
          (dictInsert cache (faaOf station) (some coord))
      else remoteScan toFetch rest coords cache

/-- The not-found marking loop (lines 97-100): cache the absent-sentinel for
every fetched code that did not end up in `coords`. -/
def markNotFound (coords : List (String × Coord)) : CoordCache → List String → CoordCache
  | cache, [] => cache
  | cache, code :: rest =>
      markNotFound coords
        (if (dictLookup coords code).isSome then cache else dictInsert cache code none)
        rest

/-- The failure branch (lines 102-106): cache the absent-sentinel for every
code of the failed batch. -/
def markAllAbsent : CoordCache → List String → CoordCache
  | cache, [] => cache
  | cache, code :: rest => markAllAbsent (dictInsert cache code none) rest

/-- Result of `fetch_station_coordinates`: the returned mapping, the updated
cache, and whether the remote batch call was issued. -/
structure FetchCoordsOut where
  coords : List (String × Coord)
  cache : CoordCache
  called : Bool
deriving DecidableEq, Repr

/-- `fetch_station_coordinates` (`winds_aloft.py` lines 48-108).  `remote` is
the outcome of the single batch stationinfo call: `none` when the `try`
block raises, `some stations` for a decoded response (an empty body, which
the source skips parsing, behaves as `some []`). -/
def fetch_station_coordinates (cache : CoordCache) (station_codes : List String)
    (remote : Option (List StationRec)) : FetchCoordsOut :=
  let coords := cachedCoords cache station_codes
  let codes_to_fetch := codesToFetch cache station_codes
  if codes_to_fetch = [] then ⟨coords, cache, false⟩
  else
    match remote with
    | some stations_data =>
        let p := remoteScan codes_to_fetch stations_data coords cache
        ⟨p.1, markNotFound p.1 p.2 codes_to_fetch, true⟩
    | none => ⟨coords, markAllAbsent cache codes_to_fetch, true⟩

/-- The fixed region list of the winds handler (`winds_aloft.py` line 131). -/
def valid_regions : List String := ["bos", "mia", "chi", "dfw", "slc", "sfo"]

/-- The fixed forecast-period list (`winds_aloft.py` line 132). -/
def valid_fcsts : List String := ["6", "12", "24"]

/-- Winds handler outcome: response, resulting coordinate cache, and whether
the bulletin fetch was issued. -/
structure WindsOut where
  resp : Response
  cache : CoordCache
  bulletinCalled : Bool
deriving DecidableEq, Repr

/-- `handler` of `winds_aloft.py` (lines 111-236).  `bulletin` is the
windtemp fetch oracle, `coordRemote` the stationinfo batch oracle used by
`fetch_station_coordinates`. -/
def winds_handler (regionP fcstP : Option String) (bulletin : RemoteResult String)
    (cache : CoordCache) (coordRemote : Option (List StationRec)) : WindsOut :=
  let region := regionP.getD "bos"
  let fcst := fcstP.getD "6"
  if region ∉ valid_regions then
    ⟨⟨400, [("Access-Control-Allow-Origin", "*"), ("Content-Type", "application/json")],
      Body.jsonError ("Invalid region. Must be one of: " ++ String.intercalate ", " valid_regions)⟩,
     cache, false⟩
  else if fcst ∉ valid_fcsts then
    ⟨⟨400, [("Access-Control-Allow-Origin", "*"), ("Content-Type", "application/json")],
      Body.jsonError ("Invalid forecast period. Must be one of: " ++ String.intercalate ", " valid_fcsts)⟩,
     cache, false⟩
  else
    match bulletin with
    | .httpError code reason =>
        ⟨⟨code, [("Access-Control-Allow-Origin", "*"), ("Content-Type", "application/json")],
          Body.jsonError ("Failed to fetch winds aloft data: HTTP " ++ toString code ++ " " ++ reason)⟩,
         cache, true⟩
    | .connError reason =>
        ⟨⟨503, [("Access-Control-Allow-Origin", "*"), ("Content-Type", "application/json")],
          Body.jsonError ("Failed to connect to weather service: " ++ reason)⟩, cache, true⟩
    | .ok data =>
        let station_codes := extract_station_codes data
        let p := fetch_station_coordinates cache station_codes coordRemote
        ⟨⟨200, [("Access-Control-Allow-Origin", "*"),
                ("Access-Control-Allow-Headers", "Content-Type"),
                ("Access-Control-Allow-Methods", "GET,OPTIONS"),
                ("Content-Type", "application/json"),
                ("Cache-Control", "max-age=1800")],
          Body.jsonWinds data p.coords⟩, p.cache, true⟩

example : pyIn "bo" "foobor" = true := by decide
example : pyIn "bo" "frob" = false := by decide
example : pySplit "  BOS 9900  2716+04 " = ["BOS", "9900", "2716+04"] := by decide
example : pyInt? " -5 " = some (-5) := by decide
example : pyInt? "abc" = none := by decide
example : pyFloat? "42.3643" = some ⟨423643, 4⟩ := by decide
example : pyRound ⟨25, 1⟩ = 2 := by decide
example : pyRound ⟨-5, 1⟩ = 0 := by decide
example : pyRound (decMul ⟨6, 0⟩ FEET_PER_METER) = 20 := by decide
example : pyUpper (pyStrip " kbos ") = "KBOS" := by decide
example : pyStarts "KBOS" "KB" = true := by decide
example : pySplitOn '-' "US-MA" = ["US", "MA"] := by decide
example : pyStrLe "ABC" "ABD" = true := by decide
example : extract_station_codes "FT 3000 6000 9000\nBOS 9900 2716+04 2423-04\nAB 1234\nVALID 12Z" = ["BOS"] := by decide
example : String.intercalate ", " valid_regions = "bos, mia, chi, dfw, slc, sfo" := by decide
example : (winds_handler (some "BOS") none (.connError "x") [] none).resp.statusCode = 400 := by decide
example : (search_handler (some "a") none none none).resp.statusCode = 200 := by decide
example : (search_handler (some "a") none none none).resp.headers.length = 4 := by decide
example :
    search_airports [⟨"BOS", "General Edward Lawrence Logan", "MA", ⟨42, 0⟩, ⟨-71, 0⟩⟩,
                     ⟨"KXBO", "Boston Executive", "MA", ⟨42, 0⟩, ⟨-71, 0⟩⟩] "BO" 15 =
      [⟨"BOS", "General Edward Lawrence Logan", "MA", ⟨42, 0⟩, ⟨-71, 0⟩⟩,
       ⟨"KXBO", "Boston Executive", "MA", ⟨42, 0⟩, ⟨-71, 0⟩⟩] := by decide
example :
    (fetch_station_coordinates [] ["BOS", "ALB"]
      (some [⟨some "KBOS", none, some ⟨42, 0⟩, some ⟨-71, 0⟩, none, none, none⟩])).cache =
      [("BOS", some ⟨some ⟨42, 0⟩, some ⟨-71, 0⟩⟩), ("ALB", none)] := by decide

/-! ## Claim theorems: request validation and response shaping -/

/-- C6: for every `icao` parameter whose uppercased, trimmed value has length
outside `[3, 4]` (the empty string included), both the AirportLookup handler
and the MetarProxy handler answer 400 with the `InvalidInput` error body and
issue no outbound call. -/
theorem icao_invalid_rejected_without_call :
    ∀ (s : String) (r1 : RemoteResult AirportPayload) (r2 : RemoteResult String),
      (pyStrip (pyUpper s)).length < 3 ∨ 4 < (pyStrip (pyUpper s)).length →
      airport_handler (some s) r1 =
        ⟨⟨400, [("Access-Control-Allow-Origin", "*"), ("Content-Type", "application/json")],
          Body.jsonError "Invalid ICAO code. Must be 3-4 characters (e.g., KBOS, KJFK)"⟩,
         false⟩ ∧
      metar_handler (some s) r2 =
        ⟨⟨400, [("Access-Control-Allow-Origin", "*"), ("Content-Type", "application/json")],
          Body.jsonError "Invalid ICAO code. Must be 3-4 characters (e.g., KBOS, KJFK)"⟩,
         false⟩ := by
  intro s r1 r2 h
  have hc : pyStrip (pyUpper s) = "" ∨ (pyStrip (pyUpper s)).length < 3 ∨
      4 < (pyStrip (pyUpper s)).length := Or.inr h
  constructor
  · simp only [airport_handler, Option.getD_some]
    rw [if_pos hc]
  · simp only [metar_handler, Option.getD_some]
    rw [if_pos hc]

/-- C6 witness: the empty `icao` is rejected by both handlers without any
outbound call. -/
theorem icao_invalid_rejected_without_call_witness :
    airport_handler (some "") (.connError "x") =
      ⟨⟨400, [("Access-Control-Allow-Origin", "*"), ("Content-Type", "application/json")],
        Body.jsonError "Invalid ICAO code. Must be 3-4 characters (e.g., KBOS, KJFK)"⟩,
       false⟩ ∧
    metar_handler (some "") (.connError "y") =
      ⟨⟨400, [("Access-Control-Allow-Origin", "*"), ("Content-Type", "application/json")],
        Body.jsonError "Invalid ICAO code. Must be 3-4 characters (e.g., KBOS, KJFK)"⟩,
       false⟩ :=
  icao_invalid_rejected_without_call "" (.connError "x") (.connError "y") (by decide)

/-- C9: on a successful AirportLookup, the projected output takes the first
station; the `elevation` field is `round(m * 3.28084)` of the station's
meter value when it is present and absent when it is absent, and the other
projected fields are the plain projections, untouched by the conversion. -/
theorem airport_lookup_elevation_projection :
    ∀ (s : String) (station : StationRec) (rest : List StationRec),
      3 ≤ (pyStrip (pyUpper s)).length → (pyStrip (pyUpper s)).length ≤ 4 →
      airport_handler (some s) (.ok (.stations (station :: rest))) =
        ⟨⟨200, [("Access-Control-Allow-Origin", "*"),
                ("Access-Control-Allow-Headers", "Content-Type"),
                ("Access-Control-Allow-Methods", "GET,OPTIONS"),
                ("Content-Type", "application/json"),
                ("Cache-Control", "max-age=86400")],
          Body.jsonAirport
            { icao := station.icaoId.getD (pyStrip (pyUpper s))
              name := station.site.getD "Unknown"
              lat := station.lat
              lon := station.lon
              elevation := station.elev.map (fun m => pyRound (decMul m FEET_PER_METER))
              state := station.state.getD ""
              country := station.country.getD "" }⟩, true⟩ := by
  intro s station rest h3 h4
  have hc : ¬ (pyStrip (pyUpper s) = "" ∨ (pyStrip (pyUpper s)).length < 3 ∨
      4 < (pyStrip (pyUpper s)).length) := by
    rintro (he | hl | hg)
    · rw [he] at h3; exact absurd h3 (by decide)
    · omega
    · omega
  simp only [airport_handler, Option.getD_some]
  rw [if_neg hc]

/-- C9 witness: a station at 6 m elevation comes out at 20 ft
(`round(6 * 3.28084) = 20`); the other fields are the plain projections. -/
theorem airport_lookup_elevation_projection_witness :
    airport_handler (some "KBOS")
        (.ok (.stations [⟨some "KBOS", some "Boston Logan", some ⟨423643, 4⟩,
                          some ⟨-710052, 4⟩, some ⟨6, 0⟩, some "MA", some "US"⟩])) =
      ⟨⟨200, [("Access-Control-Allow-Origin", "*"),
              ("Access-Control-Allow-Headers", "Content-Type"),
              ("Access-Control-Allow-Methods", "GET,OPTIONS"),
              ("Content-Type", "application/json"),
              ("Cache-Control", "max-age=86400")],
        Body.jsonAirport ⟨"KBOS", "Boston Logan", some ⟨423643, 4⟩, some ⟨-710052, 4⟩,
                          some 20, "MA", "US"⟩⟩, true⟩ :=
  (airport_lookup_elevation_projection "KBOS"
      ⟨some "KBOS", some "Boston Logan", some ⟨423643, 4⟩, some ⟨-710052, 4⟩,
       some ⟨6, 0⟩, some "MA", some "US"⟩ [] (by decide) (by decide)).trans (by decide)

/-- C8: a `q` parameter shorter than 2 characters makes the AirportSearch
handler answer 200 with an empty JSON array, whatever the reference cache
holds, leaving the cache untouched and performing no fetch. -/
theorem search_short_query_frame :
    ∀ (q limitP : Option String) (cache : Option (List Airport))
      (remote : Option (List CsvRow)),
      (q.getD "").length < 2 →
      search_handler q limitP cache remote =
        ⟨⟨200, [("Access-Control-Allow-Origin", "*"),
                ("Access-Control-Allow-Headers", "Content-Type"),
                ("Access-Control-Allow-Methods", "GET,OPTIONS"),
                ("Content-Type", "application/json")],
          Body.jsonList []⟩, cache, false⟩ := by
  intro q limitP cache remote h
  simp only [search_handler]
  rw [if_pos h]

/-- C8 witness: a one-character query with a populated cache returns the
empty array and leaves that cache exactly as it was. -/
theorem search_short_query_frame_witness :
    search_handler (some "a") none
        (some [⟨"KBOS", "Logan", "MA", ⟨42, 0⟩, ⟨-71, 0⟩⟩]) none =
      ⟨⟨200, [("Access-Control-Allow-Origin", "*"),
              ("Access-Control-Allow-Headers", "Content-Type"),
              ("Access-Control-Allow-Methods", "GET,OPTIONS"),
              ("Content-Type", "application/json")],
        Body.jsonList []⟩, some [⟨"KBOS", "Logan", "MA", ⟨42, 0⟩, ⟨-71, 0⟩⟩], false⟩ :=
  search_short_query_frame (some "a") none
    (some [⟨"KBOS", "Logan", "MA", ⟨42, 0⟩, ⟨-71, 0⟩⟩]) none (by decide)

/-- C5 counterexample: the claim says every 200 response of the search
handler carries `Cache-Control: max-age=3600`, including for queries shorter
than 2 characters; but the short-query 200 response carries no Cache-Control
header at all. -/
theorem search_cache_control_counterexample :
    (search_handler (some "a") none none none).resp.statusCode = 200 ∧
    ("Cache-Control", "max-age=3600") ∉ (search_handler (some "a") none none none).resp.headers := by
  decide

/-- C5 (amended): a search-path 200 response (query of length at least 2)
carries `Cache-Control: max-age=3600` together with the CORS and
Content-Type headers; the short-query 200 response carries only the CORS and
Content-Type headers and no Cache-Control. -/
theorem search_cache_control_headers :
    ∀ (q limitP : Option String) (cache : Option (List Airport))
      (remote : Option (List CsvRow)),
      (2 ≤ (q.getD "").length →
        (search_handler q limitP cache remote).resp.statusCode = 200 ∧
        (search_handler q limitP cache remote).resp.headers =
          [("Access-Control-Allow-Origin", "*"),
           ("Access-Control-Allow-Headers", "Content-Type"),
           ("Access-Control-Allow-Methods", "GET,OPTIONS"),
           ("Content-Type", "application/json"),
           ("Cache-Control", "max-age=3600")]) ∧
      ((q.getD "").length < 2 →
        (search_handler q limitP cache remote).resp.statusCode = 200 ∧
        (search_handler q limitP cache remote).resp.headers =
          [("Access-Control-Allow-Origin", "*"),
           ("Access-Control-Allow-Headers", "Content-Type"),
           ("Access-Control-Allow-Methods", "GET,OPTIONS"),
           ("Content-Type", "application/json")] ∧
        ("Cache-Control", "max-age=3600") ∉ (search_handler q limitP cache remote).resp.headers) := by
  intro q limitP cache remote
  by_cases hq : (q.getD "").length < 2
  · refine ⟨fun h2 => absurd hq (by omega), fun _ => ?_⟩
    simp only [search_handler]
    rw [if_pos hq]
    refine ⟨rfl, rfl, ?_⟩
    show ("Cache-Control", "max-age=3600") ∉
      [("Access-Control-Allow-Origin", "*"),
       ("Access-Control-Allow-Headers", "Content-Type"),
       ("Access-Control-Allow-Methods", "GET,OPTIONS"),
       ("Content-Type", "application/json")]
    decide
  · refine ⟨fun _ => ?_, fun h => absurd h hq⟩
    simp only [search_handler]
    rw [if_neg hq]
    exact ⟨rfl, rfl⟩

/-- C5 witness: a two-character query yields 200 with the Cache-Control
header, a one-character query yields 200 without it. -/
theorem search_cache_control_headers_witness :
    ((search_handler (some "bo") none none none).resp.statusCode = 200 ∧
     (search_handler (some "bo") none none none).resp.headers =
       [("Access-Control-Allow-Origin", "*"),
        ("Access-Control-Allow-Headers", "Content-Type"),
        ("Access-Control-Allow-Methods", "GET,OPTIONS"),
        ("Content-Type", "application/json"),
        ("Cache-Control", "max-age=3600")]) ∧
    ("Cache-Control", "max-age=3600") ∉ (search_handler (some "a") none none none).resp.headers :=
  ⟨(search_cache_control_headers (some "bo") none none none).1 (by decide),
   ((search_cache_control_headers (some "a") none none none).2 (by decide)).2.2⟩

/-- C7: the search handler's `limit` resolution clamps every parseable
integer into `[1, 50]` (0 and -5 resolve to 1, 999 to 50), silently resolves
non-numeric input such as `"abc"` to the default 15, and uses 15 when the
parameter is absent. -/
theorem search_limit_clamping :
    (∀ (s : String) (n : Int), pyInt? s = some n →
      parseLimit (some s) = min (max n 1) 50 ∧
      1 ≤ parseLimit (some s) ∧ parseLimit (some s) ≤ 50) ∧
    (∀ s : String, pyInt? s = none → parseLimit (some s) = 15) ∧
    parseLimit (some "0") = 1 ∧ parseLimit (some "-5") = 1 ∧
    parseLimit (some "999") = 50 ∧ parseLimit (some "abc") = 15 ∧
    parseLimit none = 15 := by
  refine ⟨?_, ?_, by decide, by decide, by decide, by decide, by decide⟩
  · intro s n h
    have he : parseLimit (some s) = min (max n 1) 50 := by
      simp [parseLimit, h]
    refine ⟨he, ?_, ?_⟩ <;> rw [he] <;> omega
  · intro s h
    simp [parseLimit, h]

/-- C7 witness: the general clamp applied at the in-range value `"7"`. -/
theorem search_limit_clamping_witness :
    parseLimit (some "7") = min (max 7 1) 50 :=
  (search_limit_clamping.1 "7" 7 (by decide)).1

/-- C4: when the dataset fetch or parse fails, `fetch_all_airports` returns
the empty list and leaves the cache unpopulated (so a later call retries);
the cache is assigned only by a successful fetch, holding exactly the
filtered, sorted dataset. -/
theorem fetch_all_airports_failure_no_cache :
    fetch_all_airports none none = ([], none) ∧
    (∀ (remote : Option (List CsvRow)) (l : List Airport),
      (fetch_all_airports none remote).2 = some l →
      ∃ rows, remote = some rows ∧ l = processRows rows) ∧
    (∀ rows : List CsvRow,
      fetch_all_airports none (some rows) = (processRows rows, some (processRows rows))) := by
  refine ⟨rfl, ?_, fun rows => rfl⟩
  intro remote l h
  match remote with
  | none => simp [fetch_all_airports] at h
  | some rows => exact ⟨rows, rfl, (Option.some.inj h).symm⟩

/-- C4 witness: a successful fetch of the empty dataset populates the cache
with the processed (empty) list. -/
theorem fetch_all_airports_failure_no_cache_witness :
    fetch_all_airports none (some []) = (processRows [], some (processRows [])) :=
  fetch_all_airports_failure_no_cache.2.2 []

/-- C10: the winds handler validates `region` and `fcst` by exact string
membership in the fixed lists, with no trimming or case folding: any value
outside the lists (such as `"BOS"`, `" bos"`, or `"06"`) is answered 400
with the `InvalidInput` body naming the allowed values, and the bulletin
fetch is not issued. -/
theorem winds_validation_strict :
    ∀ (regionP fcstP : Option String) (bulletin : RemoteResult String)
      (cache : CoordCache) (coordRemote : Option (List StationRec)),
      ((regionP.getD "bos") ∉ valid_regions →
        winds_handler regionP fcstP bulletin cache coordRemote =
          ⟨⟨400, [("Access-Control-Allow-Origin", "*"), ("Content-Type", "application/json")],
            Body.jsonError "Invalid region. Must be one of: bos, mia, chi, dfw, slc, sfo"⟩,
           cache, false⟩) ∧
      ((regionP.getD "bos") ∈ valid_regions → (fcstP.getD "6") ∉ valid_fcsts →
        winds_handler regionP fcstP bulletin cache coordRemote =
          ⟨⟨400, [("Access-Control-Allow-Origin", "*"), ("Content-Type", "application/json")],
            Body.jsonError "Invalid forecast period. Must be one of: 6, 12, 24"⟩,
           cache, false⟩) ∧
      (winds_handler (some "BOS") fcstP bulletin cache coordRemote).resp.statusCode = 400 ∧
      (winds_handler (some " bos") fcstP bulletin cache coordRemote).resp.statusCode = 400 ∧
      (winds_handler (some "bos") (some "06") bulletin cache coordRemote).resp.statusCode = 400 := by
  intro regionP fcstP bulletin cache coordRemote
  refine ⟨?_, ?_, ?_, ?_, ?_⟩
  · intro h
    simp only [winds_handler]
    have hs : "Invalid region. Must be one of: " ++ String.intercalate ", " valid_regions =
        "Invalid region. Must be one of: bos, mia, chi, dfw, slc, sfo" := by decide
    rw [if_pos h, hs]
  · intro hr hf
    simp only [winds_handler]
    have hs : "Invalid forecast period. Must be one of: " ++ String.intercalate ", " valid_fcsts =
        "Invalid forecast period. Must be one of: 6, 12, 24" := by decide
    rw [if_neg (by simpa using hr), if_pos hf, hs]
  · simp only [winds_handler, Option.getD_some]
    rw [if_pos (by decide : ("BOS" : String) ∉ valid_regions)]
  · simp only [winds_handler, Option.getD_some]
    rw [if_pos (by decide : (" bos" : String) ∉ valid_regions)]
  · simp only [winds_handler, Option.getD_some]
    rw [if_neg (by decide : ¬ ("bos" : String) ∉ valid_regions),
        if_pos (by decide : ("06" : String) ∉ valid_fcsts)]

/-- C10 witness: the uppercase region `"BOS"` is rejected with the
region-list error without fetching the bulletin. -/
theorem winds_validation_strict_witness :
    winds_handler (some "BOS") (some "6") (.connError "x") [] none =
      ⟨⟨400, [("Access-Control-Allow-Origin", "*"), ("Content-Type", "application/json")],
        Body.jsonError "Invalid region. Must be one of: bos, mia, chi, dfw, slc, sfo"⟩,
       [], false⟩ :=
  (winds_validation_strict (some "BOS") (some "6") (.connError "x") [] none).1 (by decide)

/-- The station code produced by one line is exactly: the line is not blank
and not a header, and its first whitespace-delimited token is a 3-character
all-alphabetic string. -/
theorem lineStation_some_iff (line s : String) :
    lineStation line = some s ↔
      ¬ (pyStrip line = "" ∨ pyStarts (pyStrip line) "(" = true ∨
         pyStarts (pyStrip line) "FD" = true ∨ pyStarts (pyStrip line) "DATA" = true ∨
         pyStarts (pyStrip line) "VALID" = true ∨ pyStarts (pyStrip line) "FT" = true ∨
         pyIn "TEMPS NEG" (pyStrip line) = true) ∧
      (pySplit (pyStrip line)).head? = some s ∧
      s.length = 3 ∧ s.data.all Char.isAlpha = true := by
  simp only [lineStation]
  by_cases hskip : pyStrip line = "" ∨ pyStarts (pyStrip line) "(" = true ∨
      pyStarts (pyStrip line) "FD" = true ∨ pyStarts (pyStrip line) "DATA" = true ∨
      pyStarts (pyStrip line) "VALID" = true ∨ pyStarts (pyStrip line) "FT" = true ∨
      pyIn "TEMPS NEG" (pyStrip line) = true
  · rw [if_pos hskip]
    simp [hskip]
  · rw [if_neg hskip]
    cases hps : pySplit (pyStrip line) with
    | nil => simp [hskip]
    | cons t rest =>
        simp only [List.head?_cons, hskip, not_false_iff, true_and]
        constructor
        · intro h
          by_cases hc : t.length = 3 ∧ t.data.all Char.isAlpha = true
          · rw [if_pos hc] at h
            have hts : t = s := Option.some.inj h
            exact ⟨congrArg some hts, hts ▸ hc.1, hts ▸ hc.2⟩
          · rw [if_neg hc] at h
            exact absurd h (by simp)
        · rintro ⟨hts, hlen, halpha⟩
          have : t = s := Option.some.inj hts
          subst this
          rw [if_pos ⟨hlen, halpha⟩]

/-- C2: a station code is extracted exactly when some bulletin line, after
stripping, is neither blank nor a header line (starting with `(`, `FD`,
`DATA`, `VALID`, `FT`, or containing `TEMPS NEG`) and has the code as its
first whitespace-delimited token, the token being exactly 3 characters and
purely alphabetic; the result is the deduplicated set.  Concretely, the
bulletin with headers and the single data line `BOS 9900 2716+04 2423-04`
yields exactly `BOS`, while the lines `AB 1234` and `VALID 12Z` contribute
nothing. -/
theorem winds_station_extraction :
    (∀ raw s : String,
      s ∈ extract_station_codes raw ↔
        ∃ line ∈ pySplitOn '\n' raw,
          ¬ (pyStrip line = "" ∨ pyStarts (pyStrip line) "(" = true ∨
             pyStarts (pyStrip line) "FD" = true ∨ pyStarts (pyStrip line) "DATA" = true ∨
             pyStarts (pyStrip line) "VALID" = true ∨ pyStarts (pyStrip line) "FT" = true ∨
             pyIn "TEMPS NEG" (pyStrip line) = true) ∧
          (pySplit (pyStrip line)).head? = some s ∧
          s.length = 3 ∧ s.data.all Char.isAlpha = true) ∧
    extract_station_codes "FT 3000 6000 9000\nBOS 9900 2716+04 2423-04\nAB 1234\nVALID 12Z" =
      ["BOS"] ∧
    extract_station_codes "AB 1234" = [] ∧
    extract_station_codes "VALID 12Z" = [] := by
  refine ⟨?_, by decide, by decide, by decide⟩
  intro raw s
  unfold extract_station_codes
  rw [List.mem_dedup, List.mem_filterMap]
  constructor
  · rintro ⟨line, hmem, hls⟩
    exact ⟨line, hmem, (lineStation_some_iff line s).1 hls⟩
  · rintro ⟨line, hmem, hpred⟩
    exact ⟨line, hmem, (lineStation_some_iff line s).2 hpred⟩

/-- C2 witness: the concrete exclusions, by the theorem itself. -/
theorem winds_station_extraction_witness :
    extract_station_codes "AB 1234" = [] ∧ extract_station_codes "VALID 12Z" = [] :=
  ⟨winds_station_extraction.2.2.1, winds_station_extraction.2.2.2⟩

/-! ## Coordinate cache lemmas (C3) -/

/-- Lookup after a dict write. -/
theorem dictLookup_dictInsert {α : Type} (d : List (String × α)) (k c : String) (v : α) :
    dictLookup (dictInsert d k v) c = if k = c then some v else dictLookup d c := by
  induction d with
  | nil => simp [dictInsert, dictLookup]
  | cons p t ih =>
      obtain ⟨k', v'⟩ := p
      by_cases hk : k' = k <;> by_cases hc : k = c <;>
        simp_all [dictInsert, dictLookup]

/-- A code lands in `codes_to_fetch` exactly when it is requested and absent
from the cache. -/
theorem cacheScanAux_toFetch_mem (cache : CoordCache) :
    ∀ (codes : List String) (coords : List (String × Coord)) (toFetch : List String)
      (c : String),
      c ∈ (cacheScanAux cache coords toFetch codes).2 ↔
        c ∈ toFetch ∨ (c ∈ codes ∧ dictLookup cache c = none) := by
  intro codes
  induction codes with
  | nil => intro coords toFetch c; simp [cacheScanAux]
  | cons code rest ih =>
      intro coords toFetch c
      cases h : dictLookup cache code with
      | none =>
          simp only [cacheScanAux, h]
          rw [ih]
          constructor
          · rintro (hmem | hrest)
            · rcases List.mem_append.1 hmem with h1 | h2
              · exact Or.inl h1
              · have hc : c = code := by simpa using h2
                subst hc
                exact Or.inr ⟨by simp, h⟩
            · exact Or.inr ⟨List.mem_cons_of_mem _ hrest.1, hrest.2⟩
          · rintro (h1 | ⟨hmem, hnone⟩)
            · exact Or.inl (List.mem_append_left _ h1)
            · rcases List.mem_cons.1 hmem with rfl | hr
              · exact Or.inl (List.mem_append_right _ (by simp))
              · exact Or.inr ⟨hr, hnone⟩
      | some vo =>
          have hstep : ∀ r : List String, c ∈ r ∨ (c ∈ rest ∧ dictLookup cache c = none) ↔
              c ∈ r ∨ (c ∈ code :: rest ∧ dictLookup cache c = none) := by
            intro r
            constructor
            · rintro (h1 | ⟨hr, hn⟩)
              · exact Or.inl h1
              · exact Or.inr ⟨List.mem_cons_of_mem _ hr, hn⟩
            · rintro (h1 | ⟨hmem, hnone⟩)
              · exact Or.inl h1
              · rcases List.mem_cons.1 hmem with rfl | hr
                · rw [h] at hnone; cases hnone
                · exact Or.inr ⟨hr, hnone⟩
          cases vo with
          | none =>
              simp only [cacheScanAux, h]
              rw [ih, hstep]
          | some v =>
              simp only [cacheScanAux, h]
              rw [ih, hstep]

/-- The cache-scan output at a code cached with a present coordinate. -/
theorem cacheScanAux_coords_pres (cache : CoordCache) (c : String) (v : Coord)
    (hc : dictLookup cache c = some (some v)) :
    ∀ (codes : List String) (coords : List (String × Coord)) (toFetch : List String),
      dictLookup (cacheScanAux cache coords toFetch codes).1 c =
        if c ∈ codes then some v else dictLookup coords c := by
  intro codes
  induction codes with
  | nil => intro coords toFetch; simp [cacheScanAux]
  | cons code rest ih =>
      intro coords toFetch
      cases h : dictLookup cache code with
      | none =>
          have hne : c ≠ code := by rintro rfl; rw [h] at hc; cases hc
          simp only [cacheScanAux, h]
          rw [ih]
          simp [List.mem_cons, hne]
      | some vo =>
          cases vo with
          | none =>
              have hne : c ≠ code := by rintro rfl; rw [h] at hc; exact (by cases hc)
              simp only [cacheScanAux, h]
              rw [ih]
              simp [List.mem_cons, hne]
          | some w =>
              simp only [cacheScanAux, h]
              rw [ih]
              by_cases hcc : c = code
              · have hwv : w = v := by
                  subst hcc
                  rw [hc] at h
                  exact (Option.some.inj (Option.some.inj h)).symm
                subst hwv
                subst hcc
                rw [dictLookup_dictInsert]
                by_cases hcr : c ∈ rest <;> simp [hcr, List.mem_cons]
              · rw [dictLookup_dictInsert]
                have hne2 : ¬ code = c := fun hh => hcc hh.symm
                simp [List.mem_cons, hcc, hne2]

/-- The cache scan leaves the `coords` accumulator unchanged at a code whose
cache entry is missing or the absent-sentinel. -/
theorem cacheScanAux_coords_unres (cache : CoordCache) (c : String)
    (hc : dictLookup cache c = none ∨ dictLookup cache c = some none) :
    ∀ (codes : List String) (coords : List (String × Coord)) (toFetch : List String),
      dictLookup (cacheScanAux cache coords toFetch codes).1 c = dictLookup coords c := by
  intro codes
  induction codes with
  | nil => intro coords toFetch; simp [cacheScanAux]
  | cons code rest ih =>
      intro coords toFetch
      cases h : dictLookup cache code with
      | none => simp only [cacheScanAux, h]; rw [ih]
      | some vo =>
          cases vo with
          | none => simp only [cacheScanAux, h]; rw [ih]
          | some w =>
              have hne : ¬ code = c := by
                rintro rfl
                rcases hc with h1 | h1 <;> rw [h] at h1 <;> cases h1
              simp only [cacheScanAux, h]
              rw [ih, dictLookup_dictInsert, if_neg hne]

/-- The remote-response loop does not touch codes outside `toFetch`. -/
theorem remoteScan_frame (toFetch : List String) (c : String) (hc : c ∉ toFetch) :
    ∀ (stations : List StationRec) (coords : List (String × Coord)) (cache : CoordCache),
      dictLookup (remoteScan toFetch stations coords cache).1 c = dictLookup coords c ∧
      dictLookup (remoteScan toFetch stations coords cache).2 c = dictLookup cache c := by
  intro stations
  induction stations with
  | nil => intro coords cache; simp [remoteScan]
  | cons station rest ih =>
      intro coords cache
      by_cases hf : faaOf station ∈ toFetch
      · have hne : ¬ faaOf station = c := by rintro rfl; exact hc hf
        simp only [remoteScan, if_pos hf]
        constructor
        · rw [(ih _ _).1, dictLookup_dictInsert, if_neg hne]
        · rw [(ih _ _).2, dictLookup_dictInsert, if_neg hne]
      · simp only [remoteScan, if_neg hf]
        exact ih _ _

/-- The remote-response loop writes the same coordinate to the mapping and
to the cache, so agreement at a code is preserved. -/
theorem remoteScan_agree (toFetch : List String) (c : String) :
    ∀ (stations : List StationRec) (coords : List (String × Coord)) (cache : CoordCache),
      (∀ v, dictLookup coords c = some v ↔ dictLookup cache c = some (some v)) →
      ∀ v, dictLookup (remoteScan toFetch stations coords cache).1 c = some v ↔
        dictLookup (remoteScan toFetch stations coords cache).2 c = some (some v) := by
  intro stations
  induction stations with
  | nil => intro coords cache hagree v; simpa [remoteScan] using hagree v
  | cons station rest ih =>
      intro coords cache hagree v
      by_cases hf : faaOf station ∈ toFetch
      · simp only [remoteScan, if_pos hf]
        refine ih _ _ (fun w => ?_) v
        rw [dictLookup_dictInsert, dictLookup_dictInsert]
        by_cases hfc : faaOf station = c
        · simp [hfc]
        · simp [hfc, hagree w]
      · simp only [remoteScan, if_neg hf]
        exact ih _ _ hagree v

/-- Lookup after the not-found marking loop. -/
theorem markNotFound_lookup (coords : List (String × Coord)) (c : String) :
    ∀ (l : List String) (cache : CoordCache),
      dictLookup (markNotFound coords cache l) c =
        if c ∈ l ∧ dictLookup coords c = none then some none else dictLookup cache c := by
  intro l
  induction l with
  | nil => intro cache; simp [markNotFound]
  | cons code rest ih =>
      intro cache
      simp only [markNotFound]
      rw [ih]
      by_cases hcn : dictLookup coords c = none
      · by_cases hcr : c ∈ rest
        · simp [hcr, hcn, List.mem_cons]
        · by_cases hcc : c = code
          · subst hcc
            rw [hcn]
            simp only [Option.isSome_none, Bool.false_eq_true, if_false]
            rw [dictLookup_dictInsert, if_pos rfl]
            simp [hcn, hcr]
          · have hne2 : ¬ code = c := fun hh => hcc hh.symm
            by_cases his : (dictLookup coords code).isSome <;>
              simp [his, hcr, hcc, hcn, dictLookup_dictInsert, hne2, List.mem_cons]
      · have hfalse1 : ¬ (c ∈ rest ∧ dictLookup coords c = none) := fun hh => hcn hh.2
        have hfalse2 : ¬ (c ∈ code :: rest ∧ dictLookup coords c = none) := fun hh => hcn hh.2
        rw [if_neg hfalse1, if_neg hfalse2]
        by_cases hcc : code = c
        · subst hcc
          have his : (dictLookup coords code).isSome := by
            cases hv : dictLookup coords code
            · exact absurd hv hcn
            · simp
          rw [if_pos his]
        · by_cases his : (dictLookup coords code).isSome
          · rw [if_pos his]
          · rw [if_neg his, dictLookup_dictInsert, if_neg hcc]

/-- Lookup after the failure-branch marking loop. -/
theorem markAllAbsent_lookup (c : String) :
    ∀ (l : List String) (cache : CoordCache),
      dictLookup (markAllAbsent cache l) c =
        if c ∈ l then some none else dictLookup cache c := by
  intro l
  induction l with
  | nil => intro cache; simp [markAllAbsent]
  | cons code rest ih =>
      intro cache
      simp only [markAllAbsent]
      rw [ih, dictLookup_dictInsert]
      by_cases hcc : code = c <;> by_cases hcr : c ∈ rest
      · simp [hcc, hcr, List.mem_cons]
      · simp [hcc, hcr, List.mem_cons]
      · simp [hcc, hcr, List.mem_cons]
      · have hcc2 : ¬ c = code := fun h => hcc h.symm
        simp [hcc, hcc2, hcr, List.mem_cons]

/-- C3: once `fetch_station_coordinates` has resolved a code — to a
coordinate, or to the absent-sentinel because it was missing from the remote
response or the batch failed — no call with that code fetches it remotely
again (it never enters `codes_to_fetch`, and resolution survives any later
call); and the mapping a call returns has an entry for a code exactly when
the code was requested and its resolved cache value is a present
(non-sentinel) coordinate. -/
theorem winds_coordinate_cache_idempotent :
    ∀ (cache : CoordCache) (codes : List String) (remote : Option (List StationRec))
      (c : String),
      ((dictLookup cache c).isSome = true → c ∉ codesToFetch cache codes) ∧
      (c ∈ codes →
        (dictLookup (fetch_station_coordinates cache codes remote).cache c).isSome = true) ∧
      ((dictLookup cache c).isSome = true →
        (dictLookup (fetch_station_coordinates cache codes remote).cache c).isSome = true) ∧
      (∀ codes2, c ∈ codes →
        c ∉ codesToFetch (fetch_station_coordinates cache codes remote).cache codes2) ∧
      (∀ v, dictLookup (fetch_station_coordinates cache codes remote).coords c = some v ↔
        (c ∈ codes ∧
         dictLookup (fetch_station_coordinates cache codes remote).cache c = some (some v))) := by
  have hTFmem : ∀ (cache2 : CoordCache) (cs : List String) (x : String),
      x ∈ codesToFetch cache2 cs ↔ x ∈ cs ∧ dictLookup cache2 x = none := by
    intro cache2 cs x
    have h := cacheScanAux_toFetch_mem cache2 cs [] [] x
    simpa [codesToFetch] using h
  intro cache codes remote c
  have hCCpres : ∀ w, dictLookup cache c = some (some w) →
      dictLookup (cachedCoords cache codes) c = if c ∈ codes then some w else none := by
    intro w hw
    have h := cacheScanAux_coords_pres cache c w hw codes [] []
    simpa [cachedCoords, dictLookup] using h
  have hCCunres : (dictLookup cache c = none ∨ dictLookup cache c = some none) →
      dictLookup (cachedCoords cache codes) c = none := by
    intro h
    have h2 := cacheScanAux_coords_unres cache c h codes [] []
    simpa [cachedCoords, dictLookup] using h2
  have conj1 : (dictLookup cache c).isSome = true → c ∉ codesToFetch cache codes := by
    intro hs hmem
    rcases (hTFmem cache codes c).1 hmem with ⟨-, hnone⟩
    rw [hnone] at hs
    cases hs
  -- the central facts, by case analysis on the three branches of the call
  have central :
      (c ∈ codes →
        (dictLookup (fetch_station_coordinates cache codes remote).cache c).isSome = true) ∧
      ((dictLookup cache c).isSome = true →
        (dictLookup (fetch_station_coordinates cache codes remote).cache c).isSome = true) ∧
      (∀ v, dictLookup (fetch_station_coordinates cache codes remote).coords c = some v ↔
        (c ∈ codes ∧
         dictLookup (fetch_station_coordinates cache codes remote).cache c = some (some v))) := by
    by_cases hTF : codesToFetch cache codes = []
    · -- everything requested was already resolved: no fetch
      have hF : fetch_station_coordinates cache codes remote =
          ⟨cachedCoords cache codes, cache, false⟩ := by
        simp [fetch_station_coordinates, hTF]
      rw [hF]
      refine ⟨?_, fun h => h, ?_⟩
      · intro hc
        cases hv : dictLookup cache c with
        | none =>
            have : c ∈ codesToFetch cache codes := (hTFmem cache codes c).2 ⟨hc, hv⟩
            rw [hTF] at this
            cases this
        | some vo => simp
      · intro v
        cases hv : dictLookup cache c with
        | none =>
            rw [hCCunres (Or.inl hv)]
            constructor
            · intro h; cases h
            · rintro ⟨-, h2⟩; cases h2
        | some vo =>
            cases vo with
            | none =>
                rw [hCCunres (Or.inr hv)]
                constructor
                · intro h; cases h
                · rintro ⟨-, h2⟩; exact absurd (Option.some.inj h2) (by simp)
            | some w =>
                rw [hCCpres w hv]
                constructor
                · intro h
                  by_cases hc : c ∈ codes
                  · rw [if_pos hc] at h
                    have hwv : w = v := Option.some.inj h
                    exact ⟨hc, by rw [hwv]⟩
                  · rw [if_neg hc] at h; cases h
                · rintro ⟨hc, h2⟩
                  have hwv : w = v := Option.some.inj (Option.some.inj h2)
                  rw [if_pos hc, hwv]
    · cases hrem : remote with
      | none =>
          -- batch failed: every fetched code becomes the absent-sentinel
          have hF : fetch_station_coordinates cache codes none =
              ⟨cachedCoords cache codes,
               markAllAbsent cache (codesToFetch cache codes), true⟩ := by
            simp [fetch_station_coordinates, hTF]
          rw [hF]
          have hMA : ∀ x, dictLookup (markAllAbsent cache (codesToFetch cache codes)) x =
              if x ∈ codesToFetch cache codes then some none else dictLookup cache x :=
            fun x => markAllAbsent_lookup x (codesToFetch cache codes) cache
          refine ⟨?_, ?_, ?_⟩
          · intro hc
            rw [hMA c]
            by_cases hmem : c ∈ codesToFetch cache codes
            · simp [hmem]
            · cases hv : dictLookup cache c with
              | none => exact absurd ((hTFmem cache codes c).2 ⟨hc, hv⟩) hmem
              | some vo => simp [hmem, hv]
          · intro hs
            rw [hMA c]
            by_cases hmem : c ∈ codesToFetch cache codes
            · simp [hmem]
            · simpa [hmem] using hs
          · intro v
            cases hv : dictLookup cache c with
            | none =>
                rw [hCCunres (Or.inl hv), hMA c]
                constructor
                · intro h; cases h
                · rintro ⟨-, h2⟩
                  by_cases hmem : c ∈ codesToFetch cache codes
                  · rw [if_pos hmem] at h2
                    exact absurd (Option.some.inj h2) (by simp)
                  · rw [if_neg hmem, hv] at h2; cases h2
            | some vo =>
                have hnmem : c ∉ codesToFetch cache codes := by
                  intro hmem
                  rcases (hTFmem cache codes c).1 hmem with ⟨-, hnone⟩
                  rw [hv] at hnone; cases hnone
                cases vo with
                | none =>
                    rw [hCCunres (Or.inr hv), hMA c, if_neg hnmem, hv]
                    constructor
                    · intro h; cases h
                    · rintro ⟨-, h2⟩; exact absurd (Option.some.inj h2) (by simp)
                | some w =>
                    rw [hCCpres w hv, hMA c, if_neg hnmem, hv]
                    constructor
                    · intro h
                      by_cases hc : c ∈ codes
                      · rw [if_pos hc] at h
                        have hwv : w = v := Option.some.inj h
                        exact ⟨hc, by rw [hwv]⟩
                      · rw [if_neg hc] at h; cases h
                    · rintro ⟨hc, h2⟩
                      have hwv : w = v := Option.some.inj (Option.some.inj h2)
                      rw [if_pos hc, hwv]
      | some stations_data =>
          have hF : fetch_station_coordinates cache codes (some stations_data) =
              ⟨(remoteScan (codesToFetch cache codes) stations_data
                  (cachedCoords cache codes) cache).1,
               markNotFound
                 (remoteScan (codesToFetch cache codes) stations_data
                    (cachedCoords cache codes) cache).1
                 (remoteScan (codesToFetch cache codes) stations_data
                    (cachedCoords cache codes) cache).2
                 (codesToFetch cache codes), true⟩ := by
            simp [fetch_station_coordinates, hTF]
          rw [hF]
          set TF := codesToFetch cache codes with hTFdef
          set P := remoteScan TF stations_data (cachedCoords cache codes) cache with hPdef
          have hMNF : ∀ x, dictLookup (markNotFound P.1 P.2 TF) x =
              if x ∈ TF ∧ dictLookup P.1 x = none then some none else dictLookup P.2 x :=
            fun x => markNotFound_lookup P.1 x TF P.2
          by_cases hmem : c ∈ TF
          · -- the code is being fetched now
            have hcnone : dictLookup cache c = none := ((hTFmem cache codes c).1 hmem).2
            have hcmem : c ∈ codes := ((hTFmem cache codes c).1 hmem).1
            have hCC : dictLookup (cachedCoords cache codes) c = none :=
              hCCunres (Or.inl hcnone)
            have hagree : ∀ w, dictLookup P.1 c = some w ↔ dictLookup P.2 c = some (some w) := by
              refine remoteScan_agree TF c stations_data (cachedCoords cache codes) cache ?_
              intro w
              rw [hCC, hcnone]
              simp
            refine ⟨fun _ => ?_, ?_, ?_⟩
            · rw [hMNF c]
              by_cases hp1 : dictLookup P.1 c = none
              · simp [hmem, hp1]
              · cases hw : dictLookup P.1 c with
                | none => exact absurd hw hp1
                | some w =>
                    rw [if_neg (fun hh => Option.noConfusion hh.2), (hagree w).1 hw]
                    simp
            · intro hs
              rw [hcnone] at hs
              cases hs
            · intro v
              constructor
              · intro h
                refine ⟨hcmem, ?_⟩
                rw [hMNF c, if_neg (fun hh => by rw [h] at hh; cases hh.2)]
                exact (hagree v).1 h
              · rintro ⟨-, h2⟩
                rw [hMNF c] at h2
                by_cases hp1 : dictLookup P.1 c = none
                · rw [if_pos ⟨hmem, hp1⟩] at h2
                  exact absurd (Option.some.inj h2) (by simp)
                · rw [if_neg (fun hh => hp1 hh.2)] at h2
                  exact (hagree v).2 h2
          · -- the code was not fetched: both structures framed
            have hfr := remoteScan_frame TF c hmem stations_data (cachedCoords cache codes) cache
            have hcframe : dictLookup (markNotFound P.1 P.2 TF) c = dictLookup cache c := by
              rw [hMNF c, if_neg (fun hh => hmem hh.1), hfr.2]
            refine ⟨?_, ?_, ?_⟩
            · intro hc
              rw [hcframe]
              cases hv : dictLookup cache c with
              | none => exact absurd ((hTFmem cache codes c).2 ⟨hc, hv⟩) hmem
              | some vo => simp
            · intro hs
              rw [hcframe]
              exact hs
            · intro v
              rw [hcframe, hfr.1]
              cases hv : dictLookup cache c with
              | none =>
                  rw [hCCunres (Or.inl hv)]
                  constructor
                  · intro h; cases h
                  · rintro ⟨hc, h2⟩; exact absurd ((hTFmem cache codes c).2 ⟨hc, hv⟩) hmem
              | some vo =>
                  cases vo with
                  | none =>
                      rw [hCCunres (Or.inr hv)]
                      constructor
                      · intro h; cases h
                      · rintro ⟨-, h2⟩; exact absurd (Option.some.inj h2) (by simp)
                  | some w =>
                      rw [hCCpres w hv]
                      constructor
                      · intro h
                        by_cases hc : c ∈ codes
                        · rw [if_pos hc] at h
                          exact ⟨hc, by rw [Option.some.inj h]⟩
                        · rw [if_neg hc] at h; cases h
                      · rintro ⟨hc, h2⟩
                        rw [if_pos hc, Option.some.inj (Option.some.inj h2)]
  refine ⟨conj1, central.1, central.2.1, ?_, central.2.2⟩
  intro codes2 hc hmem2
  rcases (hTFmem (fetch_station_coordinates cache codes remote).cache codes2 c).1 hmem2 with
    ⟨-, hnone⟩
  have hs := central.1 hc
  rw [hnone] at hs
  cases hs

/-- C3 witness: a first call resolves `BOS` (found) and `ALB` (absent);
a second call for the same bulletin fetches neither. -/
theorem winds_coordinate_cache_idempotent_witness :
    ("BOS" : String) ∉
      codesToFetch (fetch_station_coordinates []
        ["BOS", "ALB"]
        (some [⟨some "KBOS", none, some ⟨42, 0⟩, some ⟨-71, 0⟩, none, none, none⟩])).cache
        ["BOS", "ALB"] ∧
    ("ALB" : String) ∉
      codesToFetch (fetch_station_coordinates []
        ["BOS", "ALB"]
        (some [⟨some "KBOS", none, some ⟨42, 0⟩, some ⟨-71, 0⟩, none, none, none⟩])).cache
        ["BOS", "ALB"] :=
  ⟨(winds_coordinate_cache_idempotent []
      ["BOS", "ALB"]
      (some [⟨some "KBOS", none, some ⟨42, 0⟩, some ⟨-71, 0⟩, none, none, none⟩])
      "BOS").2.2.2.1 ["BOS", "ALB"] (by decide),
   (winds_coordinate_cache_idempotent []
      ["BOS", "ALB"]
      (some [⟨some "KBOS", none, some ⟨42, 0⟩, some ⟨-71, 0⟩, none, none, none⟩])
      "ALB").2.2.2.1 ["BOS", "ALB"] (by decide)⟩

/-! ## Two-pass search characterization (C1) -/

/-- The first pass collects the prefix matches in order, truncating and
returning early exactly when `limit` is reached. -/
theorem firstPass_spec (query_upper : String) (limit : Int) :
    ∀ (l acc : List Airport), (acc.length : Int) < limit →
      firstPass query_upper limit acc l =
        if limit ≤ ((acc ++ l.filter (fun a => pyStarts a.icao query_upper)).length : Int)
        then ((acc ++ l.filter (fun a => pyStarts a.icao query_upper)).take limit.toNat, true)
        else (acc ++ l.filter (fun a => pyStarts a.icao query_upper), false) := by
  intro l
  induction l with
  | nil =>
      intro acc h
      simp only [firstPass, List.filter_nil, List.append_nil]
      rw [if_neg (by omega)]
  | cons a rest ih =>
      intro acc h
      simp only [firstPass, List.filter_cons]
      by_cases hp : pyStarts a.icao query_upper = true
      · rw [if_pos hp, if_pos hp]
        have hx : ((acc ++ [a]).length : Int) = (acc.length : Int) + 1 := by
          simp
        by_cases hl : limit ≤ ((acc ++ [a]).length : Int)
        · rw [if_pos hl]
          rw [hx] at hl
          have hcond : limit ≤
              ((acc ++ a :: rest.filter (fun a => pyStarts a.icao query_upper)).length : Int) := by
            simp only [List.length_append, List.length_cons]
            push_cast
            omega
          rw [if_pos hcond]
          have hton : limit.toNat = acc.length + 1 := by omega
          have htake : (acc ++ a :: rest.filter
              (fun a => pyStarts a.icao query_upper)).take limit.toNat = acc ++ [a] := by
            rw [hton]
            have ht := @List.take_append _ acc
              (a :: rest.filter (fun a => pyStarts a.icao query_upper)) 1
            simpa using ht
          rw [htake]
        · rw [if_neg hl]
          rw [hx] at hl
          have h2 : ((acc ++ [a]).length : Int) < limit := by rw [hx]; omega
          rw [ih (acc ++ [a]) h2]
          have hassoc : acc ++ [a] ++ rest.filter (fun a => pyStarts a.icao query_upper) =
              acc ++ a :: rest.filter (fun a => pyStarts a.icao query_upper) := by simp
          rw [hassoc]
      · rw [if_neg hp, if_neg hp]
        exact ih acc h

/-- The second pass appends the not-yet-seen substring matches in order,
truncating at `limit`. -/
theorem secondPass_spec (query_lower : String) (limit : Int) (seen : List String) :
    ∀ (l acc : List Airport), (acc.length : Int) < limit →
      secondPass query_lower limit seen acc l =
        (acc ++ l.filter
          (fun a => decide (a.icao ∉ seen) && pyIn query_lower (pyLower a.name))).take
          limit.toNat := by
  intro l
  induction l with
  | nil =>
      intro acc h
      simp only [secondPass, List.filter_nil, List.append_nil]
      exact (List.take_of_length_le (by omega)).symm
  | cons a rest ih =>
      intro acc h
      simp only [secondPass, List.filter_cons]
      by_cases hs : a.icao ∈ seen
      · rw [if_pos hs]
        have hpred : (decide (a.icao ∉ seen) && pyIn query_lower (pyLower a.name)) = false := by
          simp [hs]
        rw [hpred, if_neg (by simp)]
        exact ih acc h
      · rw [if_neg hs]
        by_cases hc : pyIn query_lower (pyLower a.name) = true
        · rw [if_pos hc]
          have hpred : (decide (a.icao ∉ seen) && pyIn query_lower (pyLower a.name)) = true := by
            simp [hs, hc]
          rw [hpred, if_pos rfl]
          have hx : ((acc ++ [a]).length : Int) = (acc.length : Int) + 1 := by simp
          by_cases hl : limit ≤ ((acc ++ [a]).length : Int)
          · rw [if_pos hl]
            rw [hx] at hl
            have hton : limit.toNat = acc.length + 1 := by omega
            rw [hton]
            have ht := @List.take_append _ acc
              (a :: rest.filter
                (fun a => decide (a.icao ∉ seen) && pyIn query_lower (pyLower a.name))) 1
            simpa using ht.symm
          · rw [if_neg hl]
            have h2 : ((acc ++ [a]).length : Int) < limit := by rw [hx]; rw [hx] at hl; omega
            rw [ih (acc ++ [a]) h2]
            have hassoc : acc ++ [a] ++ rest.filter
                (fun a => decide (a.icao ∉ seen) && pyIn query_lower (pyLower a.name)) =
                acc ++ a :: rest.filter
                  (fun a => decide (a.icao ∉ seen) && pyIn query_lower (pyLower a.name)) := by
              simp
            rw [hassoc]
        · rw [if_neg hc]
          have hcf : pyIn query_lower (pyLower a.name) = false := by
            simpa using hc
          have hpred : (decide (a.icao ∉ seen) && pyIn query_lower (pyLower a.name)) = false := by
            simp [hcf]
          rw [hpred, if_neg (by simp)]
          exact ih acc h

/-- C1 (amended): for every cached airport list, non-empty query and
positive limit, `search_airports` returns all airports whose ICAO starts
with the uppercased *and whitespace-trimmed* query first, in cache order,
followed by the not-already-included airports whose lowercased name contains
the lowercased trimmed query, in cache order, the whole result truncated at
`limit`. -/
theorem search_airports_two_pass :
    ∀ (airports : List Airport) (query : String) (limit : Int),
      1 ≤ limit →
      search_airports airports query limit = searchSpecAmended airports query limit := by
  intro airports query limit hlim
  by_cases hq : query = ""
  · simp [search_airports, searchSpecAmended, hq]
  · have h0 : ((([] : List Airport)).length : Int) < limit := by
      simp only [List.length_nil, Nat.cast_zero]
      omega
    by_cases hl : limit ≤ ((airports.filter
        (fun a => pyStarts a.icao (pyStrip (pyUpper query)))).length : Int)
    · have hfp : firstPass (pyStrip (pyUpper query)) limit [] airports =
          ((airports.filter (fun a => pyStarts a.icao (pyStrip (pyUpper query)))).take
            limit.toNat, true) := by
        rw [firstPass_spec _ _ airports [] h0]
        simp only [List.nil_append]
        rw [if_pos hl]
      simp only [search_airports, searchSpecAmended, if_neg hq, hfp]
      rw [List.take_append_of_le_length (by omega)]
      simp
    · have hfp : firstPass (pyStrip (pyUpper query)) limit [] airports =
          (airports.filter (fun a => pyStarts a.icao (pyStrip (pyUpper query))), false) := by
        rw [firstPass_spec _ _ airports [] h0]
        simp only [List.nil_append]
        rw [if_neg hl]
      simp only [search_airports, searchSpecAmended, if_neg hq, hfp]
      rw [if_pos (by omega : ((airports.filter
          (fun a => pyStarts a.icao (pyStrip (pyUpper query)))).length : Int) < limit)]
      rw [secondPass_spec _ _ _ airports _ (by omega)]
      simp

/-- C1 witness: the amended two-pass description evaluated on a cache where
`BOS` matches by prefix and `KXBO` only by name substring. -/
theorem search_airports_two_pass_witness :
    search_airports
        [⟨"BOS", "General Edward Lawrence Logan", "MA", ⟨42, 0⟩, ⟨-71, 0⟩⟩,
         ⟨"KXBO", "Boston Executive", "MA", ⟨42, 0⟩, ⟨-71, 0⟩⟩] "BO" 15 =
      searchSpecAmended
        [⟨"BOS", "General Edward Lawrence Logan", "MA", ⟨42, 0⟩, ⟨-71, 0⟩⟩,
         ⟨"KXBO", "Boston Executive", "MA", ⟨42, 0⟩, ⟨-71, 0⟩⟩] "BO" 15 :=
  search_airports_two_pass
    [⟨"BOS", "General Edward Lawrence Logan", "MA", ⟨42, 0⟩, ⟨-71, 0⟩⟩,
     ⟨"KXBO", "Boston Executive", "MA", ⟨42, 0⟩, ⟨-71, 0⟩⟩] "BO" 15 (by decide)

/-- C1 counterexample: the claim as stated matches against the uppercased
query without trimming; for the query `" KBOS"` (leading blank) the code
strips the query and finds the prefix match `KBOS`, while the claim's
description yields no match at all. -/
theorem search_airports_claim_counterexample :
    search_airports
        [⟨"KBOS", "General Edward Lawrence Logan International", "MA", ⟨42, 0⟩, ⟨-71, 0⟩⟩]
        " KBOS" 15 ≠
      searchSpecClaim
        [⟨"KBOS", "General Edward Lawrence Logan International", "MA", ⟨42, 0⟩, ⟨-71, 0⟩⟩]
        " KBOS" 15 := by
  decide
